import Mathlib

/-!
Shallow embedding of `shiny/driver/gldriver/screen.go` (package `gldriver`).

The GL driver context (`gl.Context`) is modelled as an explicit state
`GLState` that records the GL calls issued (in order), the set of valid
program handles, and fresh-handle counters.  The Go map
`windows map[uintptr]*windowImpl` is modelled as an association list; Go's
unspecified map-iteration order with an immediate `break` is modelled by
taking the head of the list.  Machine integers (`int`) are modelled as `Int`.
-/

/-- Go `image.Point`: a pair of ints. -/
structure Point where
  x : Int
  y : Int
deriving DecidableEq, Repr

/-- Go `image.Rectangle`: min/max corner points. -/
structure Rect where
  min : Point
  max : Point
deriving DecidableEq, Repr

/-- Width of a rectangle, Go's `Rectangle.Dx`. -/
def Rect.dx (r : Rect) : Int := r.max.x - r.min.x

/-- Height of a rectangle, Go's `Rectangle.Dy`. -/
def Rect.dy (r : Rect) : Int := r.max.y - r.min.y

/-- GL enum constant `gl.ARRAY_BUFFER`. -/
def gl_ARRAY_BUFFER : Nat := 0x8892

/-- GL enum constant `gl.STATIC_DRAW`. -/
def gl_STATIC_DRAW : Nat := 0x88E4

/-- GL enum constant `gl.TEXTURE_2D`. -/
def gl_TEXTURE_2D : Nat := 0x0DE1

/-- GL enum constant `gl.TEXTURE_MAG_FILTER`. -/
def gl_TEXTURE_MAG_FILTER : Nat := 0x2800

/-- GL enum constant `gl.TEXTURE_MIN_FILTER`. -/
def gl_TEXTURE_MIN_FILTER : Nat := 0x2801

/-- GL enum constant `gl.TEXTURE_WRAP_S`. -/
def gl_TEXTURE_WRAP_S : Nat := 0x2802

/-- GL enum constant `gl.TEXTURE_WRAP_T`. -/
def gl_TEXTURE_WRAP_T : Nat := 0x2803

/-- GL enum constant `gl.LINEAR`. -/
def gl_LINEAR : Nat := 0x2601

/-- GL enum constant `gl.CLAMP_TO_EDGE`. -/
def gl_CLAMP_TO_EDGE : Nat := 0x812F

/-- GL enum constant `gl.RGBA`. -/
def gl_RGBA : Nat := 0x1908

/-- GL enum constant `gl.UNSIGNED_BYTE`. -/
def gl_UNSIGNED_BYTE : Nat := 0x1401

/-- One GL call as recorded in the observed GPU-call trace.  The
`compileProgramCall` event records whether the compilation succeeded. -/
inductive GLCall where
  | compileProgramCall (ok : Bool)
  | getAttribLocation (p : Nat) (name : String)
  | getUniformLocation (p : Nat) (name : String)
  | createBuffer
  | bindBuffer (target : Nat) (buf : Nat)
  | bufferData (target : Nat) (usage : Nat)
  | createTexture
  | bindTexture (target : Nat) (tex : Nat)
  | texImage2D (target : Nat) (level : Nat) (width : Int) (height : Int)
      (format : Nat) (ty : Nat)
  | texParameteri (target : Nat) (pname : Nat) (val : Nat)
deriving DecidableEq, Repr

/-- State of the (single, shared) GL context: valid program handles, fresh
handle counters, the compilation oracle, and the trace of issued calls.
Handle counters start at 1 in well-formed states so that the Go zero value
`0` of `gl.Program` is never a valid handle. -/
structure GLState where
  programs : List Nat
  nextProg : Nat
  nextTex : Nat
  nextBuf : Nat
  compileOk : Bool
  calls : List GLCall
deriving DecidableEq, Repr

/-- Go `glctx.IsProgram(p)`: whether `p` is a valid program handle. -/
def GLState.isProgram (g : GLState) (p : Nat) : Bool := g.programs.contains p

/-- Append one GL call to the trace. -/
def GLState.record (g : GLState) (c : GLCall) : GLState :=
  { g with calls := g.calls ++ [c] }

/-- Go `glctx.GetAttribLocation(p, name)`.  Locations are opaque handles never
inspected by this fragment; they are modelled by the attribute name itself. -/
def GLState.getAttribLocation (g : GLState) (p : Nat) (name : String) :
    GLState × String :=
  (g.record (GLCall.getAttribLocation p name), name)

/-- Go `glctx.GetUniformLocation(p, name)`, modelled like attribute locations. -/
def GLState.getUniformLocation (g : GLState) (p : Nat) (name : String) :
    GLState × String :=
  (g.record (GLCall.getUniformLocation p name), name)

/-- Go `glctx.CreateBuffer()`: returns a fresh buffer handle. -/
def GLState.createBuffer (g : GLState) : GLState × Nat :=
  ({ g.record GLCall.createBuffer with nextBuf := g.nextBuf + 1 }, g.nextBuf)

/-- Go `glctx.BindBuffer(target, buf)`. -/
def GLState.bindBuffer (g : GLState) (target buf : Nat) : GLState :=
  g.record (GLCall.bindBuffer target buf)

/-- Go `glctx.BufferData(target, quadCoords, usage)`; the static quad data
(`quadCoords`, defined outside this fragment) is not inspected. -/
def GLState.bufferData (g : GLState) (target usage : Nat) : GLState :=
  g.record (GLCall.bufferData target usage)

/-- Go `glctx.CreateTexture()`: returns a fresh texture handle. -/
def GLState.createTexture (g : GLState) : GLState × Nat :=
  ({ g.record GLCall.createTexture with nextTex := g.nextTex + 1 }, g.nextTex)

/-- Go `glctx.BindTexture(target, tex)`. -/
def GLState.bindTexture (g : GLState) (target tex : Nat) : GLState :=
  g.record (GLCall.bindTexture target tex)

/-- Go `glctx.TexImage2D(target, level, w, h, format, ty, nil)`. -/
def GLState.texImage2D (g : GLState) (target level : Nat) (w h : Int)
    (format ty : Nat) : GLState :=
  g.record (GLCall.texImage2D target level w h format ty)

/-- Go `glctx.TexParameteri(target, pname, val)`. -/
def GLState.texParameteri (g : GLState) (target pname val : Nat) : GLState :=
  g.record (GLCall.texParameteri target pname val)

/-- Opaque stand-in for the external `textureVertexSrc` shader text. -/
def textureVertexSrc : String := "textureVertexSrc"

/-- Opaque stand-in for the external `textureFragmentSrc` shader text. -/
def textureFragmentSrc : String := "textureFragmentSrc"

/-- Modelled from the spec: `compileProgram` is defined outside this fragment;
per the spec, shader/program compilation either succeeds or its failure is
surfaced to the caller as a creation failure, with no internal retry.  The
outcome is modelled by the `compileOk` oracle of the context; success
allocates a fresh valid program handle. -/
def compileProgram (g : GLState) (vsrc fsrc : String) : GLState × Option Nat :=
  if g.compileOk then
    ({ g with programs := g.programs ++ [g.nextProg],
              nextProg := g.nextProg + 1,
              calls := g.calls ++ [GLCall.compileProgramCall true] },
     some g.nextProg)
  else
    ({ g with calls := g.calls ++ [GLCall.compileProgramCall false] }, none)

/-- Errors surfaced by the screen methods. -/
inductive screenError where
  | noContextAvailable
  | compileFailed
deriving DecidableEq, Repr

/-- Error text as produced by `fmt.Errorf` in the source. -/
def errorMessage : screenError → String
  | screenError.noContextAvailable => "gldriver: no GL context available"
  | screenError.compileFailed => "gldriver: compile failed"

/-- Capacity-1-or-0 Go channel of `struct{}`, modelled by its capacity and how
many signals are currently buffered. -/
structure chanState where
  cap : Nat
  buffered : Nat
deriving DecidableEq, Repr

/-- Modelled from the spec: the non-blocking `select`-with-`default` send used
by `publish()` lives in `window.go`, outside this fragment; per the spec it is
a best-effort send that drops the signal when the buffer is full. -/
def trySend (c : chanState) : chanState :=
  if c.buffered < c.cap then { c with buffered := c.buffered + 1 } else c

/-- Receive from the channel: yields whether a signal was observed and the
channel state afterwards. -/
def tryRecv (c : chanState) : Bool × chanState :=
  if c.buffered = 0 then (false, c) else (true, { c with buffered := c.buffered - 1 })

/-- Iterated `trySend`: `k` publish signals issued before any consumer reads. -/
def sendIter : Nat → chanState → chanState
  | 0, c => c
  | k + 1, c => sendIter k (trySend c)

/-- Go `windowImpl` (fields used by this fragment): platform id, the attached
GL context (`nil`-able interface, hence `Option`), the platform context `ctx`
assigned by `showWindow`, and the three signalling channels made in
`NewWindow`.  The draw pump made by `pump.Make()` is external and opaque. -/
structure windowImpl where
  id : Nat
  glctx : Option Unit := none
  ctx : Option Unit := none
  publish : chanState
  draw : chanState
  drawDone : chanState
deriving DecidableEq, Repr

/-- The lazily-filled `texture` struct of `screenImpl`: shared texture-blit
program handle, attribute/uniform locations and the static quad buffer. -/
structure texProgState where
  program : Nat := 0
  pos : String := ""
  mvp : String := ""
  uvp : String := ""
  inUV : String := ""
  sample : String := ""
  quad : Nat := 0
deriving DecidableEq, Repr

/-- The lazily-filled `fill` struct of `screenImpl` (present in the source,
unused by the operations of this fragment). -/
structure fillProgState where
  program : Nat := 0
  pos : String := ""
  mvp : String := ""
  color : String := ""
  quad : Nat := 0
deriving DecidableEq, Repr

/-- Go `screenImpl`: the two shared program structs and the window registry
`windows map[uintptr]*windowImpl`, modelled as an association list. -/
structure screenImpl where
  texture : texProgState := {}
  fill : fillProgState := {}
  windows : List (Nat × windowImpl)
deriving DecidableEq, Repr

/-- Go map assignment `m[k] = v`: replace the binding for `k` or append it. -/
def mapInsert (m : List (Nat × windowImpl)) (k : Nat) (v : windowImpl) :
    List (Nat × windowImpl) :=
  match m with
  | [] => [(k, v)]
  | (k', v') :: rest =>
      if k' = k then (k, v) :: rest else (k', v') :: mapInsert rest k v

/-- Go map read `m[k]`. -/
def mapLookup (m : List (Nat × windowImpl)) (k : Nat) : Option windowImpl :=
  match m with
  | [] => none
  | (k', v') :: rest => if k' = k then some v' else mapLookup rest k

/-- The `for _, w := range s.windows { glctx = w.glctx; break }` loop of
`NewTexture`: the zero value `nil` when the registry is empty, otherwise the
(arbitrary) first window's attached context. -/
def firstGLCtx (ws : List (Nat × windowImpl)) : Option Unit :=
  match ws with
  | [] => none
  | (_, w) :: _ => w.glctx

/-- Go `textureImpl`: owning context, GL texture handle, and size. -/
structure textureImpl where
  glctx : Unit := ()
  id : Nat
  size : Point
deriving DecidableEq, Repr

/-- Result of `NewTexture`: the returned value-or-error plus the screen and
GL states after the call. -/
structure newTextureResult where
  res : Except screenError textureImpl
  screen : screenImpl
  gl : GLState
deriving Repr

/-- Lines 97-110 of `screen.go`: allocate the texture object, bind it, size
its storage and set linear filtering and edge-clamp wrapping. -/
def allocTexture (s : screenImpl) (g : GLState) (size : Point) :
    newTextureResult :=
  let r := g.createTexture
  let t : textureImpl := { id := r.2, size := size }
  let g2 := r.1.bindTexture gl_TEXTURE_2D t.id
  let g3 := g2.texImage2D gl_TEXTURE_2D 0 size.x size.y gl_RGBA gl_UNSIGNED_BYTE
  let g4 := g3.texParameteri gl_TEXTURE_2D gl_TEXTURE_MAG_FILTER gl_LINEAR
  let g5 := g4.texParameteri gl_TEXTURE_2D gl_TEXTURE_MIN_FILTER gl_LINEAR
  let g6 := g5.texParameteri gl_TEXTURE_2D gl_TEXTURE_WRAP_S gl_CLAMP_TO_EDGE
  let g7 := g6.texParameteri gl_TEXTURE_2D gl_TEXTURE_WRAP_T gl_CLAMP_TO_EDGE
  { res := Except.ok t, screen := s, gl := g7 }

/-- Go `(*screenImpl).NewTexture` (lines 61-111 of `screen.go`): pick the
first registered window's context (error when `nil`), lazily compile the
shared texture-blit program when the stored handle is not a valid program,
then allocate the texture. -/
def NewTexture (s : screenImpl) (g : GLState) (size : Point) :
    newTextureResult :=
  match firstGLCtx s.windows with
  | none => { res := Except.error screenError.noContextAvailable, screen := s, gl := g }
  | some _ =>
    if g.isProgram s.texture.program then
      allocTexture s g size
    else
      match compileProgram g textureVertexSrc textureFragmentSrc with
      | (g1, none) =>
          { res := Except.error screenError.compileFailed, screen := s, gl := g1 }
      | (g1, some p) =>
        let r2 := g1.getAttribLocation p "pos"
        let r3 := r2.1.getUniformLocation p "mvp"
        let r4 := r3.1.getUniformLocation p "uvp"
        let r5 := r4.1.getAttribLocation p "inUV"
        let r6 := r5.1.getUniformLocation p "sample"
        let r7 := r6.1.createBuffer
        let g8 := r7.1.bindBuffer gl_ARRAY_BUFFER r7.2
        let g9 := g8.bufferData gl_ARRAY_BUFFER gl_STATIC_DRAW
        let s1 : screenImpl :=
          { s with texture :=
              { program := p, pos := r2.2, mvp := r3.2, uvp := r4.2,
                inUV := r5.2, sample := r6.2, quad := r7.2 } }
        allocTexture s1 g9 size

/-- Go `image.RGBA`, reduced to the data this fragment observes: its bounds. -/
structure rgbaImage where
  rect : Rect
deriving DecidableEq, Repr

/-- Go `image.NewRGBA(r)`: a pixel store with bounds `r`. -/
def imageNewRGBA (r : Rect) : rgbaImage := { rect := r }

/-- Go `bufferImpl`: CPU-resident pixel store and its size. -/
structure bufferImpl where
  rgba : rgbaImage
  size : Point
deriving DecidableEq, Repr

/-- Go `(*screenImpl).NewBuffer` (lines 54-59 of `screen.go`): allocate a CPU
pixel buffer of the requested size.  Takes no GL state: it has no GPU
dependency, and it always returns a `nil` error. -/
def NewBuffer (s : screenImpl) (size : Point) : Except screenError bufferImpl :=
  Except.ok
    { rgba := imageNewRGBA { min := { x := 0, y := 0 }, max := size },
      size := size }

/-- Go `screen.NewWindowOptions` (external package); per the spec its fields
(future width/height/title) are currently not honoured by `NewWindow`. -/
structure NewWindowOptions where
  width : Int := 0
  height : Int := 0
  title : String := ""
deriving DecidableEq, Repr

/-- State of the external platform window system: the next fresh window id and
the log of platform windows created with their requested dimensions. -/
structure platformState where
  nextId : Nat
  created : List (Nat × Int × Int)
deriving DecidableEq, Repr

/-- Modelled from the spec: the external platform call `newWindow(width,
height)` creates a platform window of the given size and returns its id. -/
def platformNewWindow (p : platformState) (width height : Int) :
    Nat × platformState :=
  (p.nextId,
   { p with nextId := p.nextId + 1,
            created := p.created ++ [(p.nextId, width, height)] })

/-- Result of `NewWindow`: the returned `(screen.Window, error)` pair (the Go
pointer return is `Option` so that `nil` is representable), the screen and
platform states after the call, and the sequence of registry snapshots the
call passes through (before the call, after the registry insert, and after
`showWindow` attaches the platform context to the registered window). -/
structure newWindowResult where
  win : Option windowImpl
  err : Option screenError
  screen : screenImpl
  plat : platformState
  trace : List screenImpl
deriving Repr

/-- Go `(*screenImpl).NewWindow` (lines 113-136 of `screen.go`): options are
not consulted (`TODO: look at opts.`); the platform window is created with the
fixed `const width, height = 1024, 768`; the window is registered under
`s.mu`, and only then `w.ctx = showWindow(id)` attaches the platform context
(reflected into the registry, which holds a pointer to `w` in Go).  The
`drawLoop` goroutine start has no effect on the states modelled here. -/
def NewWindow (s : screenImpl) (p : platformState) (opts : Option NewWindowOptions) :
    newWindowResult :=
  let width : Int := 1024
  let height : Int := 768
  let r := platformNewWindow p width height
  let w : windowImpl :=
    { id := r.1, glctx := none, ctx := none,
      publish := { cap := 1, buffered := 0 },
      draw := { cap := 0, buffered := 0 },
      drawDone := { cap := 0, buffered := 0 } }
  let s1 : screenImpl := { s with windows := mapInsert s.windows r.1 w }
  let w2 : windowImpl := { w with ctx := some () }
  let s2 : screenImpl := { s1 with windows := mapInsert s1.windows r.1 w2 }
  { win := some w2, err := none, screen := s2, plat := r.2,
    trace := [s, s1, s2] }

/-- Repeated `NewTexture` calls against the same screen and context, one per
requested size, threading the states through. -/
def newTextureFold (s : screenImpl) (g : GLState) (sizes : List Point) :
    screenImpl × GLState :=
  match sizes with
  | [] => (s, g)
  | sz :: rest => newTextureFold (NewTexture s g sz).screen (NewTexture s g sz).gl rest

/-- Whether a trace event is a successful program compilation. -/
def isCompileOkCall : GLCall → Bool
  | GLCall.compileProgramCall true => true
  | _ => false

/-- Number of successful program compilations in the recorded GL trace. -/
def compileCount (g : GLState) : Nat := g.calls.countP isCompileOkCall

/-- Compilation measure of a screen/context pair: successful compiles so far,
plus one when the shared texture-blit program is still to be compiled.  Each
`NewTexture` call leaves this measure non-increasing, which bounds the number
of compilations of the shared program by one. -/
def compileMeasure (s : screenImpl) (g : GLState) : Nat :=
  compileCount g + (if g.isProgram s.texture.program then 0 else 1)

/-- One instruction of a lock-disciplined GPU operation: acquire `glMu`, issue
one GL call, or release `glMu`. -/
inductive Instr where
  | lock
  | call (c : GLCall)
  | unlock
deriving DecidableEq, Repr

/-- Modelled from the spec: the bodies of `Texture.Upload` and `Window.Draw`
live in `texture.go`/`window.go`, outside this fragment; per the spec each such
operation, like `NewTexture` in the source, is its whole GL-call sequence
bracketed by `glMu.Lock()` / `glMu.Unlock()`.  `compileOp cs` is the
instruction stream of one operation whose GL calls are `cs`. -/
def compileOp (cs : List GLCall) : List Instr :=
  Instr.lock :: (cs.map Instr.call ++ [Instr.unlock])

/-- The GL calls issued by a `NewTexture` call that finds the shared program
already compiled: the body of `allocTexture`, as one lock-bracketed operation. -/
def newTextureCalls (size : Point) (tex : Nat) : List GLCall :=
  [GLCall.createTexture,
   GLCall.bindTexture gl_TEXTURE_2D tex,
   GLCall.texImage2D gl_TEXTURE_2D 0 size.x size.y gl_RGBA gl_UNSIGNED_BYTE,
   GLCall.texParameteri gl_TEXTURE_2D gl_TEXTURE_MAG_FILTER gl_LINEAR,
   GLCall.texParameteri gl_TEXTURE_2D gl_TEXTURE_MIN_FILTER gl_LINEAR,
   GLCall.texParameteri gl_TEXTURE_2D gl_TEXTURE_WRAP_S gl_CLAMP_TO_EDGE,
   GLCall.texParameteri gl_TEXTURE_2D gl_TEXTURE_WRAP_T gl_CLAMP_TO_EDGE]

/-- Global state of `N` threads each performing one lock-disciplined GPU
operation: each thread's remaining instructions, the holder of `glMu`, and the
observed GPU-call trace (thread id paired with the call). -/
structure Sys where
  threads : Nat → List Instr
  holder : Option Nat
  trace : List (Nat × GLCall)

/-- Initial state: thread `t` is about to run the operation `ops t`; the lock
is free and no GL call has been observed. -/
def initSys (ops : Nat → List GLCall) : Sys :=
  { threads := fun t => compileOp (ops t), holder := none, trace := [] }

/-- Interleaving small-step semantics.  `glMu.Lock()` blocks until the mutex
is free; a GL call appends to the observed trace; `glMu.Unlock()` frees the
mutex.  Only the holder's calls can run, which is exactly what `sync.Mutex`
guarantees. -/
inductive Step : Sys → Sys → Prop where
  | lock (s : Sys) (t : Nat) (rest : List Instr) :
      s.holder = none → s.threads t = Instr.lock :: rest →
      Step s { threads := Function.update s.threads t rest,
               holder := some t, trace := s.trace }
  | call (s : Sys) (t : Nat) (c : GLCall) (rest : List Instr) :
      s.holder = some t → s.threads t = Instr.call c :: rest →
      Step s { threads := Function.update s.threads t rest,
               holder := some t, trace := s.trace ++ [(t, c)] }
  | unlock (s : Sys) (t : Nat) (rest : List Instr) :
      s.holder = some t → s.threads t = Instr.unlock :: rest →
      Step s { threads := Function.update s.threads t rest,
               holder := none, trace := s.trace }

/-- Reachability from the initial state of the given operations. -/
def Reach (ops : Nat → List GLCall) (s : Sys) : Prop :=
  Relation.ReflTransGen Step (initSys ops) s

/-- The contiguous run of trace events contributed by thread `t` issuing the
calls `cs`. -/
def blockRun (t : Nat) (cs : List GLCall) : List (Nat × GLCall) :=
  cs.map (fun c => (t, c))

/-- Concatenation of whole-operation runs: a trace of this shape is a
serialization of whole operations, one block per operation. -/
def joinBlocks (bs : List (Nat × List GLCall)) : List (Nat × GLCall) :=
  (bs.map (fun b => blockRun b.1 b.2)).flatten

/-- Invariant of the lock-discipline semantics: the observed trace is a
concatenation of whole-operation blocks of pairwise-distinct finished threads
followed, when `glMu` is held, by the partial block of the holder; every other
thread has not issued any call yet. -/
def SysInv (ops : Nat → List GLCall) (s : Sys) : Prop :=
  ∃ bs : List (Nat × List GLCall),
    (bs.map Prod.fst).Nodup ∧
    (∀ b ∈ bs, b.2 = ops b.1 ∧ s.threads b.1 = []) ∧
    ((s.holder = none ∧ s.trace = joinBlocks bs ∧
        ∀ t, t ∉ bs.map Prod.fst → s.threads t = compileOp (ops t)) ∨
     (∃ h cs₁ cs₂,
        s.holder = some h ∧ h ∉ bs.map Prod.fst ∧
        ops h = cs₁ ++ cs₂ ∧
        s.trace = joinBlocks bs ++ blockRun h cs₁ ∧
        s.threads h = cs₂.map Instr.call ++ [Instr.unlock] ∧
        ∀ t, t ∉ bs.map Prod.fst → t ≠ h → s.threads t = compileOp (ops t)))

/-- Concrete window with an attached GL context, for witnesses. -/
def wWit : windowImpl :=
  { id := 1, glctx := some (), ctx := some (),
    publish := { cap := 1, buffered := 0 },
    draw := { cap := 0, buffered := 0 },
    drawDone := { cap := 0, buffered := 0 } }

/-- Concrete screen whose registry holds the single window `wWit` and whose
shared programs are not yet compiled. -/
def sWit : screenImpl := { texture := {}, fill := {}, windows := [(1, wWit)] }

/-- Concrete screen with an empty window registry. -/
def sEmpty : screenImpl := { windows := [] }

/-- Concrete fresh GL state whose compiler succeeds. -/
def gOk : GLState :=
  { programs := [], nextProg := 1, nextTex := 1, nextBuf := 1,
    compileOk := true, calls := [] }

/-- Concrete fresh GL state whose compiler fails. -/
def gBad : GLState := { gOk with compileOk := false }

/-- Concrete initial platform state. -/
def pWit : platformState := { nextId := 1, created := [] }

/-- Concrete operation assignment for the serializability witness: every
thread creates one 64x64 texture against an already-compiled program. -/
def opsWit : Nat → List GLCall := fun _ => newTextureCalls { x := 64, y := 64 } 1

/-- Unfolding of `NewTexture` on an empty-context registry: the call returns
the no-context error and changes nothing. -/
theorem newTexture_noCtx_eq (s : screenImpl) (g : GLState) (size : Point)
    (h : firstGLCtx s.windows = none) :
    NewTexture s g size =
      { res := Except.error screenError.noContextAvailable, screen := s, gl := g } := by
  unfold NewTexture
  rw [h]

/-- Unfolding of `NewTexture` when the shared program is already valid. -/
theorem newTexture_compiled_eq (s : screenImpl) (g : GLState) (size : Point)
    (u : Unit) (h : firstGLCtx s.windows = some u)
    (hp : g.isProgram s.texture.program = true) :
    NewTexture s g size = allocTexture s g size := by
  unfold NewTexture
  rw [h]
  simp [hp]

/-- Unfolding of `NewTexture` when compilation is needed and fails. -/
theorem newTexture_compileFail_eq (s : screenImpl) (g : GLState) (size : Point)
    (u : Unit) (h : firstGLCtx s.windows = some u)
    (hp : g.isProgram s.texture.program = false) (hc : g.compileOk = false) :
    NewTexture s g size =
      { res := Except.error screenError.compileFailed, screen := s,
        gl := { g with calls := g.calls ++ [GLCall.compileProgramCall false] } } := by
  unfold NewTexture
  rw [h]
  simp [hp, compileProgram, hc]

/-- Unfolding of `NewTexture` when compilation is needed and succeeds: the
shared texture-blit state is filled in and the texture is allocated. -/
theorem newTexture_compileSuccess_eq (s : screenImpl) (g : GLState) (size : Point)
    (u : Unit) (h : firstGLCtx s.windows = some u)
    (hp : g.isProgram s.texture.program = false) (hc : g.compileOk = true) :
    NewTexture s g size =
      allocTexture
        { s with texture :=
            { program := g.nextProg, pos := "pos", mvp := "mvp", uvp := "uvp",
              inUV := "inUV", sample := "sample", quad := g.nextBuf } }
        { g with programs := g.programs ++ [g.nextProg],
                 nextProg := g.nextProg + 1,
                 nextBuf := g.nextBuf + 1,
                 calls := g.calls ++
                   [GLCall.compileProgramCall true,
                    GLCall.getAttribLocation g.nextProg "pos",
                    GLCall.getUniformLocation g.nextProg "mvp",
                    GLCall.getUniformLocation g.nextProg "uvp",
                    GLCall.getAttribLocation g.nextProg "inUV",
                    GLCall.getUniformLocation g.nextProg "sample",
                    GLCall.createBuffer,
                    GLCall.bindBuffer gl_ARRAY_BUFFER g.nextBuf,
                    GLCall.bufferData gl_ARRAY_BUFFER gl_STATIC_DRAW] }
        size := by
  unfold NewTexture
  rw [h]
  simp [hp, compileProgram, hc, GLState.getAttribLocation, GLState.getUniformLocation,
        GLState.createBuffer, GLState.bindBuffer, GLState.bufferData, GLState.record]

/-- The returned handle and screen of `allocTexture`. -/
theorem allocTexture_res (s : screenImpl) (g : GLState) (size : Point) :
    (allocTexture s g size).res = Except.ok { id := g.nextTex, size := size } := rfl

/-- `allocTexture` leaves the screen untouched. -/
theorem allocTexture_screen (s : screenImpl) (g : GLState) (size : Point) :
    (allocTexture s g size).screen = s := rfl

/-- The GL state after `allocTexture`: one fresh texture handle and the seven
allocation/parameter calls appended to the trace. -/
theorem allocTexture_gl (s : screenImpl) (g : GLState) (size : Point) :
    (allocTexture s g size).gl =
      { g with nextTex := g.nextTex + 1,
               calls := g.calls ++ newTextureCalls size g.nextTex } := by
  simp [allocTexture, GLState.createTexture, GLState.bindTexture, GLState.texImage2D,
        GLState.texParameteri, GLState.record, newTextureCalls]

/-- Reading back a binding just written by Go map assignment. -/
theorem mapLookup_mapInsert (m : List (Nat × windowImpl)) (k : Nat) (v : windowImpl) :
    mapLookup (mapInsert m k v) k = some v := by
  induction m with
  | nil => simp [mapInsert, mapLookup]
  | cons kv rest ih =>
      obtain ⟨k', v'⟩ := kv
      by_cases hk : k' = k
      · simp [mapInsert, mapLookup, hk]
      · simp [mapInsert, mapLookup, hk, ih]

/-- Saturated capacity-1 channel absorbs any number of further sends. -/
theorem sendIter_full (k : Nat) :
    sendIter k { cap := 1, buffered := 1 } = { cap := 1, buffered := 1 } := by
  induction k with
  | zero => rfl
  | succ k ih => simpa [sendIter, trySend] using ih

/-- Non-blocking sends into a fresh capacity-1 channel buffer `min k 1`. -/
theorem sendIter_publish (k : Nat) :
    sendIter k { cap := 1, buffered := 0 } = { cap := 1, buffered := min k 1 } := by
  cases k with
  | zero => simp [sendIter]
  | succ k =>
      have h1 : min (k + 1) 1 = 1 := by omega
      rw [h1]
      simpa [sendIter, trySend] using sendIter_full k

/-- C2: for every size, a `NewTexture` call made while the window registry
contains no live window returns the no-GL-context-available error — no texture
handle is produced and neither the screen nor the GL state changes, rather
than proceeding with a null context. -/
theorem newTexture_noContextAvailable (s : screenImpl) (g : GLState) (size : Point)
    (h : s.windows = []) :
    (NewTexture s g size).res = Except.error screenError.noContextAvailable ∧
    (NewTexture s g size).screen = s ∧ (NewTexture s g size).gl = g ∧
    errorMessage screenError.noContextAvailable = "gldriver: no GL context available" := by
  have h0 : firstGLCtx s.windows = none := by rw [h]; rfl
  rw [newTexture_noCtx_eq s g size h0]
  exact ⟨rfl, rfl, rfl, rfl⟩

/-- Witness for C2 at the concrete empty registry and a 64x64 request. -/
theorem newTexture_noContextAvailable_witness :
    (NewTexture sEmpty gOk { x := 64, y := 64 }).res =
      Except.error screenError.noContextAvailable ∧
    (NewTexture sEmpty gOk { x := 64, y := 64 }).screen = sEmpty ∧
    (NewTexture sEmpty gOk { x := 64, y := 64 }).gl = gOk ∧
    errorMessage screenError.noContextAvailable = "gldriver: no GL context available" :=
  newTexture_noContextAvailable sEmpty gOk { x := 64, y := 64 } rfl

/-- C6: for every size, `NewBuffer` succeeds (it never returns an error) and
the returned CPU pixel buffer's pixel store has exactly the requested
dimensions; `NewBuffer` takes no GL state at all, so it has no GPU
dependency. -/
theorem newBuffer_always_succeeds (s : screenImpl) (size : Point) :
    ∃ b : bufferImpl,
      NewBuffer s size = Except.ok b ∧
      b.size = size ∧
      b.rgba.rect.min = { x := 0, y := 0 } ∧ b.rgba.rect.max = size ∧
      b.rgba.rect.dx = size.x ∧ b.rgba.rect.dy = size.y := by
  refine ⟨_, rfl, rfl, rfl, rfl, ?_, ?_⟩ <;>
    simp [NewBuffer, imageNewRGBA, Rect.dx, Rect.dy]

/-- C8: `NewWindow` ignores every option field — its entire result is
independent of the options value — and the platform window is created with
the fixed default size 1024x768. -/
theorem newWindow_ignores_options (s : screenImpl) (p : platformState)
    (o1 o2 : Option NewWindowOptions) :
    NewWindow s p o1 = NewWindow s p o2 ∧
    (NewWindow s p o1).plat.created = p.created ++ [(p.nextId, 1024, 768)] :=
  ⟨rfl, rfl⟩

/-- C9: for every options value, including the nil options pointer,
`NewWindow` returns a non-nil window handle and a nil error: this layer has no
failure path. -/
theorem newWindow_never_fails (s : screenImpl) (p : platformState)
    (opts : Option NewWindowOptions) :
    (NewWindow s p opts).win.isSome = true ∧ (NewWindow s p opts).err = none :=
  ⟨rfl, rfl⟩

/-- C7: every window created by `NewWindow` gets a publish channel of capacity
one filled by non-blocking sends, so at most one publish signal is ever
pending: `k` publish calls before any read leave `min k 1 ≤ 1` buffered
signals, and after `k + 1` publish calls a consumer observes exactly one
signal, leaving the channel empty. -/
theorem publish_at_most_one_pending (s : screenImpl) (p : platformState)
    (opts : Option NewWindowOptions) :
    ∃ w : windowImpl,
      (NewWindow s p opts).win = some w ∧
      w.publish = { cap := 1, buffered := 0 } ∧
      (∀ k, (sendIter k w.publish).buffered = min k 1) ∧
      (∀ k, tryRecv (sendIter (k + 1) w.publish) =
        (true, { cap := 1, buffered := 0 })) := by
  refine ⟨{ id := p.nextId, glctx := none, ctx := some (),
            publish := { cap := 1, buffered := 0 },
            draw := { cap := 0, buffered := 0 },
            drawDone := { cap := 0, buffered := 0 } }, rfl, rfl, fun k => ?_, fun k => ?_⟩
  · rw [show ({ id := p.nextId, glctx := none, ctx := some (),
                publish := { cap := 1, buffered := 0 },
                draw := { cap := 0, buffered := 0 },
                drawDone := { cap := 0, buffered := 0 } : windowImpl}).publish =
        { cap := 1, buffered := 0 } from rfl, sendIter_publish k]
  · have h1 : min (k + 1) 1 = 1 := by omega
    rw [show ({ id := p.nextId, glctx := none, ctx := some (),
                publish := { cap := 1, buffered := 0 },
                draw := { cap := 0, buffered := 0 },
                drawDone := { cap := 0, buffered := 0 } : windowImpl}).publish =
        { cap := 1, buffered := 0 } from rfl, sendIter_publish (k + 1), h1]
    rfl

/-- C10: inside `NewWindow` the window is inserted into the registry strictly
before its rendering context is attached: among the registry snapshots the
call passes through there are positions `i < j` such that at `i` the new
window is registered with `ctx` still nil, and only at the later `j` is its
context attached. -/
theorem window_registered_before_ctx (s : screenImpl) (p : platformState)
    (opts : Option NewWindowOptions) :
    ∃ i j : Fin (NewWindow s p opts).trace.length,
      (i : Nat) < (j : Nat) ∧
      (∃ w, mapLookup ((NewWindow s p opts).trace.get i).windows p.nextId = some w ∧
            w.ctx = none) ∧
      (∃ w, mapLookup ((NewWindow s p opts).trace.get j).windows p.nextId = some w ∧
            w.ctx = some ()) := by
  refine ⟨⟨1, by simp [NewWindow]⟩, ⟨2, by simp [NewWindow]⟩, by simp, ?_, ?_⟩
  · refine ⟨{ id := p.nextId, glctx := none, ctx := none,
              publish := { cap := 1, buffered := 0 },
              draw := { cap := 0, buffered := 0 },
              drawDone := { cap := 0, buffered := 0 } }, ?_, rfl⟩
    simp only [NewWindow, platformNewWindow, List.get]
    exact mapLookup_mapInsert s.windows p.nextId _
  · refine ⟨{ id := p.nextId, glctx := none, ctx := some (),
              publish := { cap := 1, buffered := 0 },
              draw := { cap := 0, buffered := 0 },
              drawDone := { cap := 0, buffered := 0 } }, ?_, rfl⟩
    simp only [NewWindow, platformNewWindow, List.get]
    exact mapLookup_mapInsert _ p.nextId _

/-- C3 counterexample: a `NewTexture` call made while a live window is
registered can still fail — here the shared program is uncompiled and
compilation fails — so one registered window alone does not guarantee
success. -/
theorem newTexture_nonempty_can_fail :
    sWit.windows.length = 1 ∧
    (NewTexture sWit gBad { x := 64, y := 64 }).res =
      Except.error screenError.compileFailed :=
  ⟨rfl, rfl⟩

/-- C3 (amended): a `NewTexture` call made while at least one window exists in
the registry, provided the first-found window has an attached GL context and
the shared texture-blit program is already valid or compiles successfully,
returns a texture whose reported size equals the requested size, allocated
with linear filtering and edge-clamp wrapping. -/
theorem newTexture_size_correct (s : screenImpl) (g : GLState) (size : Point)
    (wid : Nat) (w : windowImpl) (rest : List (Nat × windowImpl))
    (hw : s.windows = (wid, w) :: rest)
    (hctx : w.glctx = some ())
    (hcomp : g.isProgram s.texture.program = true ∨ g.compileOk = true) :
    ∃ t : textureImpl,
      (NewTexture s g size).res = Except.ok t ∧
      t.size = size ∧
      GLCall.texParameteri gl_TEXTURE_2D gl_TEXTURE_MAG_FILTER gl_LINEAR ∈
        (NewTexture s g size).gl.calls ∧
      GLCall.texParameteri gl_TEXTURE_2D gl_TEXTURE_MIN_FILTER gl_LINEAR ∈
        (NewTexture s g size).gl.calls ∧
      GLCall.texParameteri gl_TEXTURE_2D gl_TEXTURE_WRAP_S gl_CLAMP_TO_EDGE ∈
        (NewTexture s g size).gl.calls ∧
      GLCall.texParameteri gl_TEXTURE_2D gl_TEXTURE_WRAP_T gl_CLAMP_TO_EDGE ∈
        (NewTexture s g size).gl.calls := by
  have hf : firstGLCtx s.windows = some () := by
    rw [hw]
    simpa [firstGLCtx] using hctx
  by_cases hp : g.isProgram s.texture.program = true
  · rw [newTexture_compiled_eq s g size () hf hp, allocTexture_gl]
    exact ⟨_, rfl, rfl, by simp [newTextureCalls], by simp [newTextureCalls],
      by simp [newTextureCalls], by simp [newTextureCalls]⟩
  · have hp' : g.isProgram s.texture.program = false := by
      simpa using hp
    have hc : g.compileOk = true := by
      rcases hcomp with h | h
      · exact absurd h hp
      · exact h
    rw [newTexture_compileSuccess_eq s g size () hf hp' hc, allocTexture_gl]
    exact ⟨_, rfl, rfl, by simp [newTextureCalls], by simp [newTextureCalls],
      by simp [newTextureCalls], by simp [newTextureCalls]⟩

/-- Witness for the amended C3 at a concrete one-window screen, fresh
succeeding context and a 64x64 request. -/
theorem newTexture_size_correct_witness :
    ∃ t : textureImpl,
      (NewTexture sWit gOk { x := 64, y := 64 }).res = Except.ok t ∧
      t.size = { x := 64, y := 64 } ∧
      GLCall.texParameteri gl_TEXTURE_2D gl_TEXTURE_MAG_FILTER gl_LINEAR ∈
        (NewTexture sWit gOk { x := 64, y := 64 }).gl.calls ∧
      GLCall.texParameteri gl_TEXTURE_2D gl_TEXTURE_MIN_FILTER gl_LINEAR ∈
        (NewTexture sWit gOk { x := 64, y := 64 }).gl.calls ∧
      GLCall.texParameteri gl_TEXTURE_2D gl_TEXTURE_WRAP_S gl_CLAMP_TO_EDGE ∈
        (NewTexture sWit gOk { x := 64, y := 64 }).gl.calls ∧
      GLCall.texParameteri gl_TEXTURE_2D gl_TEXTURE_WRAP_T gl_CLAMP_TO_EDGE ∈
        (NewTexture sWit gOk { x := 64, y := 64 }).gl.calls :=
  newTexture_size_correct sWit gOk { x := 64, y := 64 } 1 wWit [] rfl rfl (Or.inr rfl)

/-- C5: if shader/program compilation fails during `NewTexture`, the call
returns the compilation error, the screen state — in particular the shared
program handle, locations and quad buffer — is unchanged, no GL program
becomes valid, no texture object is created, and exactly one compilation
attempt appears in the trace: compilation is not retried within the call. -/
theorem newTexture_compileFail_clean (s : screenImpl) (g : GLState) (size : Point)
    (wid : Nat) (w : windowImpl) (rest : List (Nat × windowImpl))
    (hw : s.windows = (wid, w) :: rest)
    (hctx : w.glctx = some ())
    (hp : g.isProgram s.texture.program = false)
    (hc : g.compileOk = false) :
    (NewTexture s g size).res = Except.error screenError.compileFailed ∧
    (NewTexture s g size).screen = s ∧
    (NewTexture s g size).gl.programs = g.programs ∧
    (NewTexture s g size).gl.nextTex = g.nextTex ∧
    (NewTexture s g size).gl.calls = g.calls ++ [GLCall.compileProgramCall false] := by
  have hf : firstGLCtx s.windows = some () := by
    rw [hw]
    simpa [firstGLCtx] using hctx
  rw [newTexture_compileFail_eq s g size () hf hp hc]
  exact ⟨rfl, rfl, rfl, rfl, rfl⟩

/-- Witness for C5 at a concrete one-window screen whose context's compiler
fails. -/
theorem newTexture_compileFail_clean_witness :
    (NewTexture sWit gBad { x := 64, y := 64 }).res =
      Except.error screenError.compileFailed ∧
    (NewTexture sWit gBad { x := 64, y := 64 }).screen = sWit ∧
    (NewTexture sWit gBad { x := 64, y := 64 }).gl.programs = gBad.programs ∧
    (NewTexture sWit gBad { x := 64, y := 64 }).gl.nextTex = gBad.nextTex ∧
    (NewTexture sWit gBad { x := 64, y := 64 }).gl.calls =
      gBad.calls ++ [GLCall.compileProgramCall false] :=
  newTexture_compileFail_clean sWit gBad { x := 64, y := 64 } 1 wWit [] rfl rfl rfl rfl

/-- `allocTexture` performs no compilation. -/
theorem allocTexture_compileCount (s : screenImpl) (g : GLState) (size : Point) :
    compileCount (allocTexture s g size).gl = compileCount g := by
  rw [allocTexture_gl]
  simp [compileCount, List.countP_append, List.countP_cons, newTextureCalls,
        isCompileOkCall]

/-- `allocTexture` does not change the set of valid programs. -/
theorem allocTexture_programs (s : screenImpl) (g : GLState) (size : Point) :
    (allocTexture s g size).gl.programs = g.programs := by
  rw [allocTexture_gl]

/-- One `NewTexture` call never increases the compilation measure: each call
either skips compilation, fails without a successful compile, or compiles
once while making the shared program valid from then on. -/
theorem newTexture_measure_le (s : screenImpl) (g : GLState) (size : Point) :
    compileMeasure (NewTexture s g size).screen (NewTexture s g size).gl ≤
      compileMeasure s g := by
  cases hf : firstGLCtx s.windows with
  | none =>
      rw [newTexture_noCtx_eq s g size hf]
  | some u =>
      cases u
      by_cases hp : g.isProgram s.texture.program = true
      · rw [newTexture_compiled_eq s g size () hf hp]
        have h1 : (allocTexture s g size).gl.isProgram s.texture.program =
            g.isProgram s.texture.program := by
          unfold GLState.isProgram
          rw [allocTexture_programs]
        unfold compileMeasure
        rw [allocTexture_screen, allocTexture_compileCount, h1]
      · have hp' : g.isProgram s.texture.program = false := by simpa using hp
        cases hc : g.compileOk with
        | false =>
            rw [newTexture_compileFail_eq s g size () hf hp' hc]
            unfold compileMeasure
            simp [compileCount, List.countP_append, List.countP_cons,
                  isCompileOkCall, GLState.isProgram]
        | true =>
            rw [newTexture_compileSuccess_eq s g size () hf hp' hc]
            unfold compileMeasure
            rw [allocTexture_screen, allocTexture_compileCount]
            have h2 : (allocTexture
                { s with texture :=
                    { program := g.nextProg, pos := "pos", mvp := "mvp",
                      uvp := "uvp", inUV := "inUV", sample := "sample",
                      quad := g.nextBuf } }
                { g with programs := g.programs ++ [g.nextProg],
                         nextProg := g.nextProg + 1,
                         nextBuf := g.nextBuf + 1,
                         calls := g.calls ++
                           [GLCall.compileProgramCall true,
                            GLCall.getAttribLocation g.nextProg "pos",
                            GLCall.getUniformLocation g.nextProg "mvp",
                            GLCall.getUniformLocation g.nextProg "uvp",
                            GLCall.getAttribLocation g.nextProg "inUV",
                            GLCall.getUniformLocation g.nextProg "sample",
                            GLCall.createBuffer,
                            GLCall.bindBuffer gl_ARRAY_BUFFER g.nextBuf,
                            GLCall.bufferData gl_ARRAY_BUFFER gl_STATIC_DRAW] }
                size).gl.programs = g.programs ++ [g.nextProg] := by
              rw [allocTexture_programs]
            have hp2 : s.texture.program ∉ g.programs := by
              simpa [GLState.isProgram] using hp'
            simp [compileCount, List.countP_append, List.countP_cons,
                  isCompileOkCall, GLState.isProgram, hp2, h2]

/-- The compilation measure is non-increasing across any sequence of
`NewTexture` calls. -/
theorem newTextureFold_measure (sizes : List Point) :
    ∀ s g, compileMeasure (newTextureFold s g sizes).1 (newTextureFold s g sizes).2 ≤
      compileMeasure s g := by
  induction sizes with
  | nil => intro s g; simp [newTextureFold]
  | cons sz rest ih =>
      intro s g
      have hstep : newTextureFold s g (sz :: rest) =
          newTextureFold (NewTexture s g sz).screen (NewTexture s g sz).gl rest := rfl
      rw [hstep]
      exact le_trans (ih (NewTexture s g sz).screen (NewTexture s g sz).gl)
        (newTexture_measure_le s g sz)

/-- C4: across any sequence of `NewTexture` calls against the same context,
the shared texture-blit program is compiled at most once; a call that finds
the stored handle valid skips compilation and leaves the shared texture state
untouched; and a successful call from the uncompiled state compiles exactly
once, filling in the program handle, attribute/uniform locations and quad
buffer, and leaving the handle valid for every later call. -/
theorem texture_program_compiled_once (s : screenImpl) (g : GLState)
    (sizes : List Point) (h0 : compileCount g = 0) :
    compileCount (newTextureFold s g sizes).2 ≤ 1 ∧
    (∀ size, g.isProgram s.texture.program = true →
        (NewTexture s g size).screen.texture = s.texture ∧
        compileCount (NewTexture s g size).gl = compileCount g) ∧
    (∀ size t, g.isProgram s.texture.program = false →
        (NewTexture s g size).res = Except.ok t →
        (NewTexture s g size).gl.isProgram
          (NewTexture s g size).screen.texture.program = true ∧
        compileCount (NewTexture s g size).gl = compileCount g + 1 ∧
        (NewTexture s g size).screen.texture =
          { program := g.nextProg, pos := "pos", mvp := "mvp", uvp := "uvp",
            inUV := "inUV", sample := "sample", quad := g.nextBuf }) := by
  refine ⟨?_, ?_, ?_⟩
  · have h1 := newTextureFold_measure sizes s g
    unfold compileMeasure at h1
    rw [h0] at h1
    have h2 : compileCount (newTextureFold s g sizes).2 ≤
        compileCount (newTextureFold s g sizes).2 +
          (if (newTextureFold s g sizes).2.isProgram
              (newTextureFold s g sizes).1.texture.program then 0 else 1) :=
      Nat.le_add_right _ _
    have h3 : (0 + if g.isProgram s.texture.program then 0 else 1) ≤ 1 := by
      split <;> omega
    omega
  · intro size hp
    cases hf : firstGLCtx s.windows with
    | none =>
        rw [newTexture_noCtx_eq s g size hf]
        exact ⟨rfl, rfl⟩
    | some u =>
        cases u
        rw [newTexture_compiled_eq s g size () hf hp]
        exact ⟨by rw [allocTexture_screen], allocTexture_compileCount s g size⟩
  · intro size t hp hres
    cases hf : firstGLCtx s.windows with
    | none =>
        rw [newTexture_noCtx_eq s g size hf] at hres
        exact Except.noConfusion hres
    | some u =>
        cases u
        cases hc : g.compileOk with
        | false =>
            rw [newTexture_compileFail_eq s g size () hf hp hc] at hres
            exact Except.noConfusion hres
        | true =>
            rw [newTexture_compileSuccess_eq s g size () hf hp hc]
            refine ⟨?_, ?_, by rw [allocTexture_screen]⟩
            · have h2 := allocTexture_programs
                { s with texture :=
                    { program := g.nextProg, pos := "pos", mvp := "mvp",
                      uvp := "uvp", inUV := "inUV", sample := "sample",
                      quad := g.nextBuf } }
                { g with programs := g.programs ++ [g.nextProg],
                         nextProg := g.nextProg + 1,
                         nextBuf := g.nextBuf + 1,
                         calls := g.calls ++
                           [GLCall.compileProgramCall true,
                            GLCall.getAttribLocation g.nextProg "pos",
                            GLCall.getUniformLocation g.nextProg "mvp",
                            GLCall.getUniformLocation g.nextProg "uvp",
                            GLCall.getAttribLocation g.nextProg "inUV",
                            GLCall.getUniformLocation g.nextProg "sample",
                            GLCall.createBuffer,
                            GLCall.bindBuffer gl_ARRAY_BUFFER g.nextBuf,
                            GLCall.bufferData gl_ARRAY_BUFFER gl_STATIC_DRAW] }
                size
              rw [allocTexture_screen]
              simp [GLState.isProgram, h2]
            · rw [allocTexture_compileCount]
              simp [compileCount, List.countP_append, List.countP_cons,
                    isCompileOkCall]

/-- Witness for C4 at a concrete one-window screen, a fresh succeeding
context, and two texture requests. -/
theorem texture_program_compiled_once_witness :
    compileCount (newTextureFold sWit gOk
        [{ x := 64, y := 64 }, { x := 32, y := 32 }]).2 ≤ 1 ∧
    (∀ size, gOk.isProgram sWit.texture.program = true →
        (NewTexture sWit gOk size).screen.texture = sWit.texture ∧
        compileCount (NewTexture sWit gOk size).gl = compileCount gOk) ∧
    (∀ size t, gOk.isProgram sWit.texture.program = false →
        (NewTexture sWit gOk size).res = Except.ok t →
        (NewTexture sWit gOk size).gl.isProgram
          (NewTexture sWit gOk size).screen.texture.program = true ∧
        compileCount (NewTexture sWit gOk size).gl = compileCount gOk + 1 ∧
        (NewTexture sWit gOk size).screen.texture =
          { program := gOk.nextProg, pos := "pos", mvp := "mvp", uvp := "uvp",
            inUV := "inUV", sample := "sample", quad := gOk.nextBuf }) :=
  texture_program_compiled_once sWit gOk
    [{ x := 64, y := 64 }, { x := 32, y := 32 }] rfl

/-- Appending one event of thread `t` to its run. -/
theorem blockRun_append (t : Nat) (cs : List GLCall) (c : GLCall) :
    blockRun t (cs ++ [c]) = blockRun t cs ++ [(t, c)] := by
  simp [blockRun]

/-- `joinBlocks` over a snoc of blocks. -/
theorem joinBlocks_snoc (bs : List (Nat × List GLCall)) (t : Nat) (cs : List GLCall) :
    joinBlocks (bs ++ [(t, cs)]) = joinBlocks bs ++ blockRun t cs := by
  simp [joinBlocks]

/-- The initial state satisfies the lock-discipline invariant. -/
theorem sysInv_init (ops : Nat → List GLCall) : SysInv ops (initSys ops) := by
  exact ⟨[], by simp, by simp,
    Or.inl ⟨rfl, by simp [joinBlocks, initSys], fun t _ => rfl⟩⟩

/-- The lock-discipline invariant is preserved by every step. -/
theorem sysInv_step (ops : Nat → List GLCall) (s s' : Sys) (hs : Step s s')
    (hi : SysInv ops s) : SysInv ops s' := by
  obtain ⟨bs, hnd, hdone, hrest⟩ := hi
  cases hs with
  | lock t rest hnone hthr =>
      rcases hrest with ⟨-, htr, hns⟩ | ⟨h, cs₁, cs₂, hh, -, -, -, -, -⟩
      · have htn : t ∉ bs.map Prod.fst := by
          intro hmem
          obtain ⟨b, hb, hb1⟩ := List.mem_map.mp hmem
          have hbt := (hdone b hb).2
          rw [hb1] at hbt
          rw [hbt] at hthr
          exact List.noConfusion hthr
        have hcomp := hns t htn
        rw [hthr] at hcomp
        unfold compileOp at hcomp
        have hrest2 : rest = (ops t).map Instr.call ++ [Instr.unlock] :=
          ((List.cons.injEq _ _ _ _).mp hcomp).2
        refine ⟨bs, hnd, ?_, Or.inr ⟨t, [], ops t, rfl, htn, by simp, ?_, ?_, ?_⟩⟩
        · intro b hb
          refine ⟨(hdone b hb).1, ?_⟩
          have hne : b.1 ≠ t := by
            intro he
            apply htn
            rw [← he]
            exact List.mem_map_of_mem Prod.fst hb
          dsimp only
          rw [Function.update_noteq hne]
          exact (hdone b hb).2
        · simpa [blockRun] using htr
        · simp only [Function.update_same]
          simpa using hrest2
        · intro u hu hut
          dsimp only
          rw [Function.update_noteq hut]
          exact hns u hu
      · rw [hnone] at hh
        exact Option.noConfusion hh
  | call t c rest hsome hthr =>
      rcases hrest with ⟨hn, -, -⟩ | ⟨h, cs₁, cs₂, hh, hhn, hsplit, htr, hth, hns⟩
      · rw [hn] at hsome
        exact Option.noConfusion hsome
      · have hht : h = t := by
          rw [hh] at hsome
          exact Option.some.inj hsome
        subst hht
        cases cs₂ with
        | nil =>
            have h12 := hth.symm.trans hthr
            simp at h12
        | cons c0 cs₂' =>
            have h12 := hth.symm.trans hthr
            rw [List.map_cons, List.cons_append] at h12
            have hc0 : Instr.call c0 = Instr.call c := ((List.cons.injEq _ _ _ _).mp h12).1
            have hcs : cs₂'.map Instr.call ++ [Instr.unlock] = rest :=
              ((List.cons.injEq _ _ _ _).mp h12).2
            have hc0' : c0 = c := by
              injection hc0
            subst hc0'
            refine ⟨bs, hnd, ?_, Or.inr ⟨h, cs₁ ++ [c0], cs₂', rfl, hhn, ?_, ?_, ?_, ?_⟩⟩
            · intro b hb
              refine ⟨(hdone b hb).1, ?_⟩
              have hne : b.1 ≠ h := by
                intro he
                apply hhn
                rw [← he]
                exact List.mem_map_of_mem Prod.fst hb
              dsimp only
              rw [Function.update_noteq hne]
              exact (hdone b hb).2
            · rw [hsplit]
              simp
            · rw [htr, blockRun_append]
              exact List.append_assoc _ _ _
            · simp only [Function.update_same]
              exact hcs.symm
            · intro u hu hut
              dsimp only
              rw [Function.update_noteq hut]
              exact hns u hu hut
  | unlock t rest hsome hthr =>
      rcases hrest with ⟨hn, -, -⟩ | ⟨h, cs₁, cs₂, hh, hhn, hsplit, htr, hth, hns⟩
      · rw [hn] at hsome
        exact Option.noConfusion hsome
      · have hht : h = t := by
          rw [hh] at hsome
          exact Option.some.inj hsome
        subst hht
        cases cs₂ with
        | cons c0 cs₂' =>
            have h12 := hth.symm.trans hthr
            simp at h12
        | nil =>
            have h12 := hth.symm.trans hthr
            have hrest0 : rest = [] := by
              simpa using h12.symm
            have hops : ops h = cs₁ := by
              simpa using hsplit
            refine ⟨bs ++ [(h, cs₁)], ?_, ?_, Or.inl ⟨rfl, ?_, ?_⟩⟩
            · simp [List.nodup_append, hnd, hhn]
            · intro b hb
              rcases List.mem_append.mp hb with hb1 | hb2
              · refine ⟨(hdone b hb1).1, ?_⟩
                have hne : b.1 ≠ h := by
                  intro he
                  apply hhn
                  rw [← he]
                  exact List.mem_map_of_mem Prod.fst hb1
                dsimp only
                rw [Function.update_noteq hne]
                exact (hdone b hb1).2
              · have hbe : b = (h, cs₁) := by
                  simpa using hb2
                rw [hbe]
                refine ⟨hops.symm, ?_⟩
                simp only [Function.update_same]
                exact hrest0
            · rw [joinBlocks_snoc]
              exact htr
            · intro u hu
              have hu1 : u ∉ bs.map Prod.fst := by
                intro hm
                exact hu (by simp [hm])
              have hu2 : u ≠ h := by
                intro he
                exact hu (by simp [he])
              dsimp only
              rw [Function.update_noteq hu2]
              exact hns u hu1 hu2

/-- Every reachable state satisfies the lock-discipline invariant. -/
theorem sysInv_reach (ops : Nat → List GLCall) (s : Sys) (h : Reach ops s) :
    SysInv ops s := by
  induction h with
  | refl => exact sysInv_init ops
  | tail _ hstep ih => exact sysInv_step ops _ _ hstep ih

/-- C1: under the `glMu` lock discipline, every reachable GPU-call trace is a
concatenation of per-operation runs of pairwise-distinct operations — every
completed operation contributes its whole call sequence as one contiguous
block, at most the current lock holder contributes a prefix of its sequence,
and when the lock is free every block is a whole operation — so the observed
trace is equivalent to some total order of whole operations and no
operation's GPU calls are ever interleaved with another's. -/
theorem glMu_serializes (ops : Nat → List GLCall) (s : Sys) (h : Reach ops s) :
    ∃ bs : List (Nat × List GLCall),
      (bs.map Prod.fst).Nodup ∧
      s.trace = joinBlocks bs ∧
      (∀ b ∈ bs, ∃ rest, ops b.1 = b.2 ++ rest) ∧
      (s.holder = none → ∀ b ∈ bs, b.2 = ops b.1) := by
  obtain ⟨bs, hnd, hdone, hrest⟩ := sysInv_reach ops s h
  rcases hrest with ⟨hn, htr, -⟩ | ⟨t0, cs₁, cs₂, hsome, hnm, hsplit, htr, -, -⟩
  · refine ⟨bs, hnd, htr, ?_, fun _ b hb => (hdone b hb).1⟩
    intro b hb
    exact ⟨[], by rw [(hdone b hb).1, List.append_nil]⟩
  · refine ⟨bs ++ [(t0, cs₁)], ?_, ?_, ?_, ?_⟩
    · simp [List.nodup_append, hnd, hnm]
    · rw [joinBlocks_snoc]
      exact htr
    · intro b hb
      rcases List.mem_append.mp hb with hb1 | hb2
      · exact ⟨[], by rw [(hdone b hb1).1, List.append_nil]⟩
      · have hbe : b = (t0, cs₁) := by
          simpa using hb2
        refine ⟨cs₂, ?_⟩
        rw [hbe]
        exact hsplit
    · intro hn0
      rw [hsome] at hn0
      exact Option.noConfusion hn0

/-- Witness for C1: the initial state of the concrete operation set `opsWit`
is reachable, and the theorem yields its (empty) trace's serialization. -/
theorem glMu_serializes_witness :
    ∃ bs : List (Nat × List GLCall),
      (bs.map Prod.fst).Nodup ∧
      (initSys opsWit).trace = joinBlocks bs ∧
      (∀ b ∈ bs, ∃ rest, opsWit b.1 = b.2 ++ rest) ∧
      ((initSys opsWit).holder = none → ∀ b ∈ bs, b.2 = opsWit b.1) :=
  glMu_serializes opsWit (initSys opsWit) Relation.ReflTransGen.refl
